import Mathlib

/-!
# Pairwise score calculator (`pairwise_scores_calcer.h`)

A shallow embedding of `CreateScoreHelper`, `TBestSplitResult` and
`TPairwiseScoreCalcer` from
`catboost/cuda/methods/pairwise_oblivious_trees/pairwise_scores_calcer.h`.

* `EFeaturesGroupingPolicy`, `TPairwiseOptimizationSubsets` and `float` are
  declared in other headers; they are the type parameters `P`, `S` and `F`.
* `GetAllGroupingPolicies()` is declared in another header; the list it
  returns is the parameter `GetAllGroupingPolicies`.
* `TMap<K, V>` is the library's ordered map (a `std::map` with `has`), and
  `CB_ENSURE(condition)` throws `TCatBoostException` when the condition is
  false.
* A C++ exception is a value of `EException`; a member function that can
  throw returns `Except EException _`.
* A `THolder` stored in a map owns an object (the constructor stores the
  result of `new`), so a map value is the object itself.
* The `const` member functions return the calculator they were called on next
  to their result, so that their effect on the two maps can be stated.
-/

namespace NCatboostCuda

/-- The exceptions the calculator can raise. `TCatBoostException` is what
`CB_ENSURE` throws, `OutOfRange` is what `at` of a map throws on a key that is
not stored, `NotReadyError` is the error the specification names for
`FindOptimalSplit`. -/
inductive EException where
  | TCatBoostException
  | OutOfRange
  | NotReadyError
  deriving DecidableEq, Repr

/-- The map `TMap<K, V>`: the stored (key, value) entries. -/
structure TMap (K V : Type) where
  entries : List (K × V)

/-- The default-constructed (empty) map. -/
def TMap.empty {K V : Type} : TMap K V := ⟨[]⟩

/-- Lookup of a key among the entries (`find`): the first entry with that key. -/
def TMap.findIn {K V : Type} [DecidableEq K] : List (K × V) → K → Option V
  | [], _ => none
  | (k', v) :: rest, k => if k' = k then some v else TMap.findIn rest k

/-- The lookup `map.find(key)`, `none` standing for `end()`. -/
def TMap.find {K V : Type} [DecidableEq K] (m : TMap K V) (k : K) : Option V :=
  TMap.findIn m.entries k

/-- The test `map.has(key)`: `find(key) != end()`. -/
def TMap.has {K V : Type} [DecidableEq K] (m : TMap K V) (k : K) : Bool :=
  (m.find k).isSome

/-- The checked access `map.at(key)`: the stored value, or the out-of-range
exception when the key is not stored. It never inserts. -/
def TMap.atKey {K V : Type} [DecidableEq K] (m : TMap K V) (k : K) : Except EException V :=
  match m.find k with
  | some v => Except.ok v
  | none => Except.error EException.OutOfRange

/-- Assignment through `operator[]` on the entries: the value stored under the
key is replaced, or a new entry is added when the key is not stored. -/
def TMap.setIn {K V : Type} [DecidableEq K] : List (K × V) → K → V → List (K × V)
  | [], k, v => [(k, v)]
  | (k', v') :: rest, k, v =>
    if k' = k then (k, v) :: rest else (k', v') :: TMap.setIn rest k v

/-- The statement `map[key] = value`. -/
def TMap.set {K V : Type} [DecidableEq K] (m : TMap K V) (k : K) (v : V) : TMap K V :=
  ⟨TMap.setIn m.entries k v⟩

/-- The class `TCompressedDataSet<TDocParallelLayout>`, seen through the one member the
calculator calls: `GetGridSize(policy)`, the number of features of a policy. -/
structure TCompressedDataSet (P : Type) where
  GetGridSize : P → Nat

/-- The class `NCatboostOptions::TObliviousTreeLearnerOptions`, seen through the members
the calculator reads. -/
structure TObliviousTreeLearnerOptions (F : Type) where
  MaxDepth : Nat
  L2Reg : F
  PairwiseNonDiagReg : F

/-- The class `TComputePairwiseScoresHelper` (declared in
`pairwise_score_calcer_for_policy.h`): an engine is the record of the six
arguments its constructor was called with, in the constructor's order. -/
structure TComputePairwiseScoresHelper (P S F : Type) where
  Policy : P
  DataSet : TCompressedDataSet P
  Subsets : S
  MaxDepth : Nat
  L2Reg : F
  NonDiagReg : F

/-- The function `CreateScoreHelper(policy, dataSet, subsets, treeConfig)`. -/
def CreateScoreHelper {P S F : Type} (policy : P) (dataSet : TCompressedDataSet P)
    (subsets : S) (treeConfig : TObliviousTreeLearnerOptions F) :
    TComputePairwiseScoresHelper P S F :=
  TComputePairwiseScoresHelper.mk policy dataSet subsets
    treeConfig.MaxDepth treeConfig.L2Reg treeConfig.PairwiseNonDiagReg

/-- The struct `TBestSplitResult`: `B` is `TBestSplitProperties`; the shared pointer
`Solution` is `none` when null. -/
structure TBestSplitResult (B F : Type) where
  BestSplit : B
  Solution : Option (List F)

/-- The comparison `TBestSplitResult::operator<`; `propsLess` is
`TBestSplitProperties::operator<`, which is declared in another header. -/
def TBestSplitResult.less {B F : Type} (propsLess : B → B → Bool)
    (self other : TBestSplitResult B F) : Bool :=
  propsLess self.BestSplit other.BestSplit

/-- The class `TPairwiseScoreCalcer`: its data members. `R` is
`TBinaryFeatureSplitResults`. -/
structure TPairwiseScoreCalcer (P S F R : Type) where
  Features : TCompressedDataSet P
  Subsets : S
  TreeConfig : TObliviousTreeLearnerOptions F
  StoreTempResults : Bool
  Helpers : TMap P (TComputePairwiseScoresHelper P S F)
  Solutions : TMap P R

/-- The calculator after the member initialisers of the constructor and before
its body: the four members are bound, both maps are default-constructed. -/
def TPairwiseScoreCalcer.init {P S F R : Type} (features : TCompressedDataSet P)
    (treeConfig : TObliviousTreeLearnerOptions F) (subsets : S)
    (storeSolverTempResults : Bool) : TPairwiseScoreCalcer P S F R :=
  TPairwiseScoreCalcer.mk features subsets treeConfig storeSolverTempResults
    TMap.empty TMap.empty

/-- One iteration of the loop in the constructor's body. -/
def TPairwiseScoreCalcer.ctorStep {P S F R : Type} [DecidableEq P]
    (self : TPairwiseScoreCalcer P S F R) (policy : P) : TPairwiseScoreCalcer P S F R :=
  if self.Features.GetGridSize policy ≠ 0 then
    TPairwiseScoreCalcer.mk self.Features self.Subsets self.TreeConfig self.StoreTempResults
      (self.Helpers.set policy
        (CreateScoreHelper policy self.Features self.Subsets self.TreeConfig))
      self.Solutions
  else self

/-- The constructor `TPairwiseScoreCalcer(features, treeConfig, subsets,
storeSolverTempResults)`: the loop runs over `GetAllGroupingPolicies`. -/
def TPairwiseScoreCalcer.construct {P S F R : Type} [DecidableEq P]
    (GetAllGroupingPolicies : List P) (features : TCompressedDataSet P)
    (treeConfig : TObliviousTreeLearnerOptions F) (subsets : S)
    (storeSolverTempResults : Bool) : TPairwiseScoreCalcer P S F R :=
  GetAllGroupingPolicies.foldl TPairwiseScoreCalcer.ctorStep
    (TPairwiseScoreCalcer.init features treeConfig subsets storeSolverTempResults)

/-- The member function `HasHelperForPolicy(policy)`. -/
def TPairwiseScoreCalcer.HasHelperForPolicy {P S F R : Type} [DecidableEq P]
    (self : TPairwiseScoreCalcer P S F R) (policy : P) :
    Bool × TPairwiseScoreCalcer P S F R :=
  (self.Helpers.has policy, self)

/-- The member function `GetHelperForPolicy(policy)`: `CB_ENSURE`, then the
engine stored under the policy. -/
def TPairwiseScoreCalcer.GetHelperForPolicy {P S F R : Type} [DecidableEq P]
    (self : TPairwiseScoreCalcer P S F R) (policy : P) :
    Except EException (TComputePairwiseScoresHelper P S F) × TPairwiseScoreCalcer P S F R :=
  if self.Helpers.has policy then (self.Helpers.atKey policy, self)
  else (Except.error EException.TCatBoostException, self)

/-- The member function `GetResultsForPolicy(policy)`: `CB_ENSURE` on the engine
map, then the statistics stored under the policy in the result store. -/
def TPairwiseScoreCalcer.GetResultsForPolicy {P S F R : Type} [DecidableEq P]
    (self : TPairwiseScoreCalcer P S F R) (policy : P) :
    Except EException R × TPairwiseScoreCalcer P S F R :=
  if self.Helpers.has policy then (self.Solutions.atKey policy, self)
  else (Except.error EException.TCatBoostException, self)

/-- The calculator `self` with its result store replaced by `solutions`. -/
def TPairwiseScoreCalcer.withSolutions {P S F R : Type}
    (self : TPairwiseScoreCalcer P S F R) (solutions : TMap P R) :
    TPairwiseScoreCalcer P S F R :=
  TPairwiseScoreCalcer.mk self.Features self.Subsets self.TreeConfig self.StoreTempResults
    self.Helpers solutions

/-! ## Best-split selection

The header declares `Compute` and `FindOptimalSplit` and does not define them,
and it uses `TBestSplitProperties` and `TBinaryFeatureSplitResults` without
declaring them. The definitions of this section follow the specification's
description of them. -/

/-- Modelled from the spec: `TBestSplitProperties`, which this header uses and
does not declare. A split candidate "identifies one (feature, threshold) pair;
comparable by a score value with a defined tie-break": it carries its score
and its identity, and the identity type `Key` carries the fixed secondary-key
order. -/
structure TBestSplitProperties (Sc Key : Type) where
  Score : Sc
  Identity : Key
  deriving DecidableEq

/-- Modelled from the spec: `TBestSplitProperties::operator<`, which this
header calls and does not declare; the total order of best-split selection. A
candidate is below another one when its score is smaller, or when the scores
are equal and the other one comes first in the secondary-key order. -/
def TBestSplitProperties.less {Sc Key : Type} [LinearOrder Sc] [LinearOrder Key]
    (self other : TBestSplitProperties Sc Key) : Bool :=
  decide (self.Score < other.Score ∨
    (self.Score = other.Score ∧ other.Identity < self.Identity))

/-- The position of a candidate in the selection order: its score first, then
its identity in the reverse of the secondary-key order. -/
def TBestSplitProperties.rank {Sc Key : Type} (self : TBestSplitProperties Sc Key) :
    Lex (Sc × Keyᵒᵈ) :=
  toLex (self.Score, OrderDual.toDual self.Identity)

/-- Modelled from the spec: `TBinaryFeatureSplitResults`, which this header uses
and does not declare; the statistics one engine produced, seen as the scored
split candidates of its policy. -/
structure TBinaryFeatureSplitResults (Sc Key : Type) where
  Candidates : List (TBestSplitProperties Sc Key)

/-- Modelled from the spec: the readiness test of `FindOptimalSplit`, which this
header declares and does not define: "`Compute()` has populated results for
every active policy", that is, the result store has an entry for every key of
the engine map. -/
def TPairwiseScoreCalcer.IsReady {P S F R : Type} [DecidableEq P]
    (self : TPairwiseScoreCalcer P S F R) : Bool :=
  self.Helpers.entries.all (fun e => self.Solutions.has e.1)

/-- Modelled from the spec: the candidates scanned by `FindOptimalSplit`, which
this header declares and does not define: "the union of SplitCandidates across
all active policies", policy after policy in the order of the engine map. -/
def TPairwiseScoreCalcer.candidatesOf {P H Sc Key : Type} [DecidableEq P]
    (solutions : TMap P (TBinaryFeatureSplitResults Sc Key)) :
    List (P × H) → List (TBestSplitProperties Sc Key)
  | [] => []
  | e :: rest =>
    (match solutions.find e.1 with
      | some r => r.Candidates
      | none => []) ++ TPairwiseScoreCalcer.candidatesOf solutions rest

/-- Modelled from the spec: all candidates of a calculator, as scanned by
`FindOptimalSplit`, which this header declares and does not define. -/
def TPairwiseScoreCalcer.Candidates {P S F Sc Key : Type} [DecidableEq P]
    (self : TPairwiseScoreCalcer P S F (TBinaryFeatureSplitResults Sc Key)) :
    List (TBestSplitProperties Sc Key) :=
  TPairwiseScoreCalcer.candidatesOf self.Solutions self.Helpers.entries

/-- Modelled from the spec: the scan of `FindOptimalSplit`, which this header
declares and does not define, with a running best: a candidate replaces the
running best when the running best is below it in the order of
`TBestSplitProperties.less`. -/
def TPairwiseScoreCalcer.scanBest {Sc Key : Type} [LinearOrder Sc] [LinearOrder Key] :
    Option (TBestSplitProperties Sc Key) → List (TBestSplitProperties Sc Key) →
      Option (TBestSplitProperties Sc Key)
  | best, [] => best
  | none, c :: rest => TPairwiseScoreCalcer.scanBest (some c) rest
  | some b, c :: rest =>
    TPairwiseScoreCalcer.scanBest (some (if b.less c then c else b)) rest

/-- Modelled from the spec: `FindOptimalSplit(needBestSolution)`, which this
header declares and does not define. It "fails with `NotReadyError` if
`Compute()` has not populated results for every active policy", otherwise it
"scans the Split Result Store across all active policies, selects the single
best SplitCandidate" and "if `needBestSolution` is true, invokes the Leaf
Solver on that candidate's statistics and attaches the resulting
SolutionVector, otherwise the SolutionVector field is absent". A store without
any candidate has no best split to return, and the request is answered with
`NotReadyError` as well ("must be detected, not silently return stale/empty
data"). `LeafSolver` is the leaf solver. -/
def TPairwiseScoreCalcer.FindOptimalSplit {P S F Sc Key : Type} [DecidableEq P]
    [LinearOrder Sc] [LinearOrder Key]
    (LeafSolver : TBestSplitProperties Sc Key → List F)
    (self : TPairwiseScoreCalcer P S F (TBinaryFeatureSplitResults Sc Key))
    (needBestSolution : Bool) :
    Except EException (TBestSplitResult (TBestSplitProperties Sc Key) F) :=
  if self.IsReady then
    match TPairwiseScoreCalcer.scanBest none self.Candidates with
    | some best =>
      Except.ok (TBestSplitResult.mk best
        (if needBestSolution then some (LeafSolver best) else none))
    | none => Except.error EException.NotReadyError
  else Except.error EException.NotReadyError

/-! ## Sample inputs -/

/-- A feature set over the policies `0`, `1`, `2`: three features under policy
`0`, none under policy `1`, two under policy `2`. -/
def sampleFeatures : TCompressedDataSet Nat :=
  ⟨fun p => if p = 0 then 3 else if p = 2 then 2 else 0⟩

/-- A tree configuration with three different values. -/
def sampleConfig : TObliviousTreeLearnerOptions Int := ⟨6, 3, 1⟩

/-- The calculator constructed over `sampleFeatures`. -/
def sampleCalcer : TPairwiseScoreCalcer Nat Unit Int (TBinaryFeatureSplitResults Int Nat) :=
  TPairwiseScoreCalcer.construct [0, 1, 2] sampleFeatures sampleConfig () false

/-- A result store with results for the policies `0` and `2`; the candidates
with identities `1`, `2` and `10` share the largest score. -/
def sampleSolutions : TMap Nat (TBinaryFeatureSplitResults Int Nat) :=
  ⟨[(0, ⟨[⟨5, 0⟩, ⟨7, 2⟩, ⟨7, 1⟩]⟩), (2, ⟨[⟨7, 10⟩, ⟨4, 11⟩]⟩)]⟩

/-- The store `sampleSolutions` with its two policies inserted in the other
order. -/
def sampleSolutionsSwapped : TMap Nat (TBinaryFeatureSplitResults Int Nat) :=
  ⟨[(2, ⟨[⟨4, 11⟩, ⟨7, 10⟩]⟩), (0, ⟨[⟨7, 1⟩, ⟨5, 0⟩, ⟨7, 2⟩]⟩)]⟩

/-- A leaf solver for the sample calculator. -/
def sampleSolver (b : TBestSplitProperties Int Nat) : List Int := [b.Score, 0]

/-! ## Lemmas on the map and on the constructor -/

theorem TMap.findIn_setIn {K V : Type} [DecidableEq K] (l : List (K × V)) (k : K) (v : V)
    (k' : K) :
    TMap.findIn (TMap.setIn l k v) k' = if k = k' then some v else TMap.findIn l k' := by
  induction l with
  | nil => simp [TMap.setIn, TMap.findIn]
  | cons e rest ih =>
    obtain ⟨a, b⟩ := e
    by_cases h : a = k
    · subst h
      by_cases h' : a = k' <;> simp [TMap.setIn, TMap.findIn, h']
    · by_cases h' : a = k'
      · subst h'
        have : ¬ k = a := fun e => h e.symm
        simp [TMap.setIn, TMap.findIn, h, this]
      · simp [TMap.setIn, TMap.findIn, h, h', ih]

theorem TMap.find_set {K V : Type} [DecidableEq K] (m : TMap K V) (k : K) (v : V) (k' : K) :
    (m.set k v).find k' = if k = k' then some v else m.find k' := by
  simp [TMap.set, TMap.find, TMap.findIn_setIn]

theorem TMap.has_eq_true_iff {K V : Type} [DecidableEq K] (m : TMap K V) (k : K) :
    m.has k = true ↔ ∃ v, m.find k = some v := by
  unfold TMap.has
  cases m.find k <;> simp

theorem TMap.has_eq_false_iff {K V : Type} [DecidableEq K] (m : TMap K V) (k : K) :
    m.has k = false ↔ m.find k = none := by
  unfold TMap.has
  cases m.find k <;> simp

theorem TMap.atKey_of_find {K V : Type} [DecidableEq K] (m : TMap K V) (k : K) (v : V)
    (h : m.find k = some v) : m.atKey k = Except.ok v := by
  simp [TMap.atKey, h]

theorem TMap.atKey_of_find_none {K V : Type} [DecidableEq K] (m : TMap K V) (k : K)
    (h : m.find k = none) : m.atKey k = Except.error EException.OutOfRange := by
  simp [TMap.atKey, h]

theorem TPairwiseScoreCalcer.ctorStep_frame {P S F R : Type} [DecidableEq P]
    (c : TPairwiseScoreCalcer P S F R) (a : P) :
    (c.ctorStep a).Features = c.Features ∧ (c.ctorStep a).Subsets = c.Subsets ∧
    (c.ctorStep a).TreeConfig = c.TreeConfig ∧
    (c.ctorStep a).StoreTempResults = c.StoreTempResults ∧
    (c.ctorStep a).Solutions = c.Solutions := by
  unfold TPairwiseScoreCalcer.ctorStep
  split <;> simp

theorem TPairwiseScoreCalcer.ctorStep_find {P S F R : Type} [DecidableEq P]
    (c : TPairwiseScoreCalcer P S F R) (a p : P) :
    (c.ctorStep a).Helpers.find p =
      if a = p ∧ c.Features.GetGridSize p ≠ 0 then
        some (CreateScoreHelper p c.Features c.Subsets c.TreeConfig)
      else c.Helpers.find p := by
  unfold TPairwiseScoreCalcer.ctorStep
  by_cases hg : c.Features.GetGridSize a ≠ 0
  · rw [if_pos hg]
    simp only [TMap.find_set]
    by_cases hap : a = p
    · subst hap
      simp [hg]
    · simp [hap]
  · rw [if_neg hg]
    by_cases hap : a = p
    · subst hap
      simp [hg]
    · simp [hap]

theorem TPairwiseScoreCalcer.foldl_ctorStep_frame {P S F R : Type} [DecidableEq P]
    (l : List P) (c : TPairwiseScoreCalcer P S F R) :
    (l.foldl TPairwiseScoreCalcer.ctorStep c).Features = c.Features ∧
    (l.foldl TPairwiseScoreCalcer.ctorStep c).Subsets = c.Subsets ∧
    (l.foldl TPairwiseScoreCalcer.ctorStep c).TreeConfig = c.TreeConfig ∧
    (l.foldl TPairwiseScoreCalcer.ctorStep c).StoreTempResults = c.StoreTempResults ∧
    (l.foldl TPairwiseScoreCalcer.ctorStep c).Solutions = c.Solutions := by
  induction l generalizing c with
  | nil => simp
  | cons a rest ih =>
    obtain ⟨h1, h2, h3, h4, h5⟩ := ih (c.ctorStep a)
    obtain ⟨g1, g2, g3, g4, g5⟩ := TPairwiseScoreCalcer.ctorStep_frame c a
    simp only [List.foldl_cons]
    exact ⟨h1.trans g1, h2.trans g2, h3.trans g3, h4.trans g4, h5.trans g5⟩

theorem TPairwiseScoreCalcer.foldl_ctorStep_find {P S F R : Type} [DecidableEq P]
    (l : List P) (c : TPairwiseScoreCalcer P S F R) (p : P) :
    (l.foldl TPairwiseScoreCalcer.ctorStep c).Helpers.find p =
      if p ∈ l ∧ c.Features.GetGridSize p ≠ 0 then
        some (CreateScoreHelper p c.Features c.Subsets c.TreeConfig)
      else c.Helpers.find p := by
  induction l generalizing c with
  | nil => simp
  | cons a rest ih =>
    obtain ⟨g1, g2, g3, _, _⟩ := TPairwiseScoreCalcer.ctorStep_frame c a
    simp only [List.foldl_cons]
    rw [ih (c.ctorStep a), g1, g2, g3, TPairwiseScoreCalcer.ctorStep_find]
    by_cases hg : c.Features.GetGridSize p ≠ 0
    · by_cases hr : p ∈ rest
      · simp [hg, hr]
      · by_cases hap : a = p
        · subst hap
          simp [hg]
        · have hpa : ¬ p = a := fun e => hap e.symm
          simp [hg, hr, hap, hpa]
    · simp [hg]

/-- What the constructor leaves in the engine map: the engine of a policy is
stored exactly when the policy is enumerated and has a feature, and it is the
one `CreateScoreHelper` builds for that policy. -/
theorem TPairwiseScoreCalcer.construct_find {P S F R : Type} [DecidableEq P]
    (all : List P) (features : TCompressedDataSet P)
    (treeConfig : TObliviousTreeLearnerOptions F) (subsets : S) (flag : Bool) (p : P) :
    (TPairwiseScoreCalcer.construct all features treeConfig subsets flag :
        TPairwiseScoreCalcer P S F R).Helpers.find p =
      if p ∈ all ∧ features.GetGridSize p ≠ 0 then
        some (CreateScoreHelper p features subsets treeConfig)
      else none := by
  unfold TPairwiseScoreCalcer.construct
  rw [TPairwiseScoreCalcer.foldl_ctorStep_find]
  simp [TPairwiseScoreCalcer.init, TMap.empty, TMap.find, TMap.findIn]

theorem TPairwiseScoreCalcer.construct_Solutions {P S F R : Type} [DecidableEq P]
    (all : List P) (features : TCompressedDataSet P)
    (treeConfig : TObliviousTreeLearnerOptions F) (subsets : S) (flag : Bool) :
    (TPairwiseScoreCalcer.construct all features treeConfig subsets flag :
        TPairwiseScoreCalcer P S F R).Solutions = TMap.empty := by
  unfold TPairwiseScoreCalcer.construct
  rw [(TPairwiseScoreCalcer.foldl_ctorStep_frame all _).2.2.2.2]
  rfl

theorem TMap.mem_setIn {K V : Type} [DecidableEq K] (l : List (K × V)) (k : K) (v : V)
    (e : K × V) (h : e ∈ TMap.setIn l k v) : e ∈ l ∨ e = (k, v) := by
  induction l with
  | nil =>
    simp only [TMap.setIn, List.mem_singleton] at h
    exact Or.inr h
  | cons x rest ih =>
    obtain ⟨a, b⟩ := x
    by_cases hak : a = k
    · simp only [TMap.setIn, hak, if_true, List.mem_cons] at h
      rcases h with h | h
      · exact Or.inr h
      · exact Or.inl (List.mem_cons_of_mem _ h)
    · simp only [TMap.setIn, hak, if_false, List.mem_cons] at h
      rcases h with h | h
      · exact Or.inl (h ▸ List.mem_cons_self _ _)
      · rcases ih h with h' | h'
        · exact Or.inl (List.mem_cons_of_mem _ h')
        · exact Or.inr h'

theorem TPairwiseScoreCalcer.foldl_ctorStep_entries {P S F R : Type} [DecidableEq P]
    (l : List P) (c : TPairwiseScoreCalcer P S F R)
    (hc : ∀ e ∈ c.Helpers.entries,
      e.2 = CreateScoreHelper e.1 c.Features c.Subsets c.TreeConfig) :
    ∀ e ∈ (l.foldl TPairwiseScoreCalcer.ctorStep c).Helpers.entries,
      e.2 = CreateScoreHelper e.1 c.Features c.Subsets c.TreeConfig := by
  induction l generalizing c with
  | nil => simpa using hc
  | cons a rest ih =>
    obtain ⟨g1, g2, g3, _, _⟩ := TPairwiseScoreCalcer.ctorStep_frame c a
    simp only [List.foldl_cons]
    have hstep : ∀ e ∈ (c.ctorStep a).Helpers.entries,
        e.2 = CreateScoreHelper e.1 (c.ctorStep a).Features (c.ctorStep a).Subsets
          (c.ctorStep a).TreeConfig := by
      rw [g1, g2, g3]
      intro e he
      unfold TPairwiseScoreCalcer.ctorStep at he
      by_cases hg : c.Features.GetGridSize a ≠ 0
      · rw [if_pos hg] at he
        rcases TMap.mem_setIn _ _ _ _ he with h | h
        · exact hc e h
        · rw [h]
      · rw [if_neg hg] at he
        exact hc e he
    have := ih (c.ctorStep a) hstep
    rw [g1, g2, g3] at this
    exact this

theorem TPairwiseScoreCalcer.construct_entries {P S F R : Type} [DecidableEq P]
    (all : List P) (features : TCompressedDataSet P)
    (treeConfig : TObliviousTreeLearnerOptions F) (subsets : S) (flag : Bool) :
    ∀ e ∈ (TPairwiseScoreCalcer.construct all features treeConfig subsets flag :
        TPairwiseScoreCalcer P S F R).Helpers.entries,
      e.2 = CreateScoreHelper e.1 features subsets treeConfig := by
  unfold TPairwiseScoreCalcer.construct
  apply TPairwiseScoreCalcer.foldl_ctorStep_entries
  intro e he
  simp [TPairwiseScoreCalcer.init, TMap.empty] at he

/-! ## The engine map after construction -/

/-- C1: for every feature set and every policy `p` that `GetAllGroupingPolicies`
enumerates, on the constructed calculator `HasHelperForPolicy(p)` is true if
and only if `Features.GetGridSize(p)` is not zero. -/
theorem HasHelperForPolicy_construct_iff {P S F R : Type} [DecidableEq P]
    (all : List P) (features : TCompressedDataSet P)
    (treeConfig : TObliviousTreeLearnerOptions F) (subsets : S) (flag : Bool) (p : P)
    (hp : p ∈ all) :
    ((TPairwiseScoreCalcer.construct all features treeConfig subsets flag :
        TPairwiseScoreCalcer P S F R).HasHelperForPolicy p).1 = true ↔
      features.GetGridSize p ≠ 0 := by
  simp only [TPairwiseScoreCalcer.HasHelperForPolicy, TMap.has,
    TPairwiseScoreCalcer.construct_find]
  by_cases hg : features.GetGridSize p ≠ 0
  · simp [hp, hg]
  · simp [hg]

theorem HasHelperForPolicy_construct_iff_witness :
    (0 ∈ [0, 1, 2]) ∧ ((sampleCalcer.HasHelperForPolicy 0).1 = true ↔
      sampleFeatures.GetGridSize 0 ≠ 0) :=
  ⟨by decide, HasHelperForPolicy_construct_iff [0, 1, 2] sampleFeatures sampleConfig () false 0
    (by decide)⟩

/-- C2: for every policy `p` whose grid size is zero, on a constructed
calculator, whatever the result store holds, `HasHelperForPolicy(p)` is false
and both `GetHelperForPolicy(p)` and `GetResultsForPolicy(p)` fail with the
exception of `CB_ENSURE`. -/
theorem absent_policy_lookups_fail {P S F R : Type} [DecidableEq P]
    (all : List P) (features : TCompressedDataSet P)
    (treeConfig : TObliviousTreeLearnerOptions F) (subsets : S) (flag : Bool)
    (solutions : TMap P R) (p : P) (h0 : features.GetGridSize p = 0) :
    ((((TPairwiseScoreCalcer.construct all features treeConfig subsets flag :
        TPairwiseScoreCalcer P S F R).withSolutions solutions).HasHelperForPolicy p).1
      = false) ∧
    ((((TPairwiseScoreCalcer.construct all features treeConfig subsets flag :
        TPairwiseScoreCalcer P S F R).withSolutions solutions).GetHelperForPolicy p).1
      = Except.error EException.TCatBoostException) ∧
    ((((TPairwiseScoreCalcer.construct all features treeConfig subsets flag :
        TPairwiseScoreCalcer P S F R).withSolutions solutions).GetResultsForPolicy p).1
      = Except.error EException.TCatBoostException) := by
  have hfind : (TPairwiseScoreCalcer.construct all features treeConfig subsets flag :
      TPairwiseScoreCalcer P S F R).Helpers.find p = none := by
    rw [TPairwiseScoreCalcer.construct_find]
    simp [h0]
  have hhas : (TPairwiseScoreCalcer.construct all features treeConfig subsets flag :
      TPairwiseScoreCalcer P S F R).Helpers.has p = false :=
    (TMap.has_eq_false_iff _ _).2 hfind
  simp [TPairwiseScoreCalcer.HasHelperForPolicy, TPairwiseScoreCalcer.GetHelperForPolicy,
    TPairwiseScoreCalcer.GetResultsForPolicy, TPairwiseScoreCalcer.withSolutions, hhas]

theorem absent_policy_lookups_fail_witness :
    sampleFeatures.GetGridSize 1 = 0 ∧
    ((sampleCalcer.withSolutions sampleSolutions).HasHelperForPolicy 1).1 = false ∧
    ((sampleCalcer.withSolutions sampleSolutions).GetHelperForPolicy 1).1
      = Except.error EException.TCatBoostException ∧
    ((sampleCalcer.withSolutions sampleSolutions).GetResultsForPolicy 1).1
      = Except.error EException.TCatBoostException :=
  ⟨by decide, absent_policy_lookups_fail [0, 1, 2] sampleFeatures sampleConfig () false
    sampleSolutions 1 (by decide)⟩

/-- C3: in every calculator state and for every policy `p`,
`GetHelperForPolicy(p)` fails with the exception of `CB_ENSURE` if and only if
`HasHelperForPolicy(p)` is false, and it fails with no other exception; when
`HasHelperForPolicy(p)` is true it returns the engine stored under `p`, which
on a constructed calculator is the engine the constructor created for `p`. -/
theorem GetHelperForPolicy_fails_iff {P S F R : Type} [DecidableEq P]
    (c : TPairwiseScoreCalcer P S F R) (p : P) :
    ((c.GetHelperForPolicy p).1 = Except.error EException.TCatBoostException ↔
      (c.HasHelperForPolicy p).1 = false) ∧
    (∀ e, (c.GetHelperForPolicy p).1 = Except.error e → (c.HasHelperForPolicy p).1 = false) ∧
    ((c.HasHelperForPolicy p).1 = true →
      ∃ h, c.Helpers.find p = some h ∧ (c.GetHelperForPolicy p).1 = Except.ok h) ∧
    (∀ (all : List P) (features : TCompressedDataSet P)
        (treeConfig : TObliviousTreeLearnerOptions F) (subsets : S) (flag : Bool),
      c = TPairwiseScoreCalcer.construct all features treeConfig subsets flag →
      (c.HasHelperForPolicy p).1 = true →
      (c.GetHelperForPolicy p).1 =
        Except.ok (CreateScoreHelper p features subsets treeConfig)) := by
  have key : (c.HasHelperForPolicy p).1 = true →
      ∃ h, c.Helpers.find p = some h ∧ (c.GetHelperForPolicy p).1 = Except.ok h := by
    intro hh
    have hh' : c.Helpers.has p = true := hh
    obtain ⟨h, hf⟩ := (TMap.has_eq_true_iff _ _).1 hh'
    refine ⟨h, hf, ?_⟩
    simp [TPairwiseScoreCalcer.GetHelperForPolicy, hh', TMap.atKey_of_find _ _ _ hf]
  have hfalse : (c.HasHelperForPolicy p).1 = false →
      (c.GetHelperForPolicy p).1 = Except.error EException.TCatBoostException := by
    intro hh
    have hh' : c.Helpers.has p = false := hh
    simp [TPairwiseScoreCalcer.GetHelperForPolicy, hh']
  have herr : ∀ e, (c.GetHelperForPolicy p).1 = Except.error e →
      (c.HasHelperForPolicy p).1 = false := by
    intro e he
    cases hb : (c.HasHelperForPolicy p).1 with
    | false => rfl
    | true =>
      obtain ⟨h, _, hok⟩ := key hb
      rw [hok] at he
      cases he
  refine ⟨⟨herr _, hfalse⟩, herr, key, ?_⟩
  intro all features treeConfig subsets flag hc hh
  obtain ⟨h, hf, hok⟩ := key hh
  rw [hok]
  subst hc
  rw [TPairwiseScoreCalcer.construct_find] at hf
  split at hf
  · cases hf
    rfl
  · cases hf

theorem GetHelperForPolicy_fails_iff_witness :
    (sampleCalcer.HasHelperForPolicy 2).1 = true ∧
    (sampleCalcer.GetHelperForPolicy 2).1 =
      Except.ok (CreateScoreHelper 2 sampleFeatures () sampleConfig) :=
  ⟨by decide, (GetHelperForPolicy_fails_iff sampleCalcer 2).2.2.2 [0, 1, 2] sampleFeatures
    sampleConfig () false rfl (by decide)⟩

/-- C5: for every enumerated policy `p` with a non-zero grid size the engine
the constructor stores under `p` is `CreateScoreHelper(p, Features, Subsets,
TreeConfig)`, that is, the engine built from `p`, the feature set, the subsets
and `MaxDepth`, `L2Reg`, `PairwiseNonDiagReg` in this order; and every entry of
the engine map holds the engine built for its own key. -/
theorem construct_engine_built_for_policy {P S F R : Type} [DecidableEq P]
    (all : List P) (features : TCompressedDataSet P)
    (treeConfig : TObliviousTreeLearnerOptions F) (subsets : S) (flag : Bool) (p : P)
    (hp : p ∈ all) (hg : features.GetGridSize p ≠ 0) :
    ((TPairwiseScoreCalcer.construct all features treeConfig subsets flag :
        TPairwiseScoreCalcer P S F R).Helpers.atKey p =
      Except.ok (TComputePairwiseScoresHelper.mk p features subsets
        treeConfig.MaxDepth treeConfig.L2Reg treeConfig.PairwiseNonDiagReg)) ∧
    (∀ e ∈ (TPairwiseScoreCalcer.construct all features treeConfig subsets flag :
        TPairwiseScoreCalcer P S F R).Helpers.entries,
      e.2 = CreateScoreHelper e.1 features subsets treeConfig ∧ e.2.Policy = e.1) := by
  constructor
  · apply TMap.atKey_of_find
    rw [TPairwiseScoreCalcer.construct_find]
    simp [hp, hg, CreateScoreHelper]
  · intro e he
    have := TPairwiseScoreCalcer.construct_entries (R := R) all features treeConfig subsets
      flag e he
    exact ⟨this, by rw [this]; rfl⟩

theorem construct_engine_built_for_policy_witness :
    (2 ∈ [0, 1, 2]) ∧ sampleFeatures.GetGridSize 2 ≠ 0 ∧
    sampleCalcer.Helpers.atKey 2 = Except.ok ⟨2, sampleFeatures, (), 6, 3, 1⟩ :=
  ⟨by decide, by decide,
    (construct_engine_built_for_policy [0, 1, 2] sampleFeatures sampleConfig () false 2
      (by decide) (by decide)).1⟩

/-- C9: for every feature set, the result store of the calculator the
constructor returns is the empty map: it has no entry for any policy, whatever
engines were created. -/
theorem construct_result_store_empty {P S F R : Type} [DecidableEq P]
    (all : List P) (features : TCompressedDataSet P)
    (treeConfig : TObliviousTreeLearnerOptions F) (subsets : S) (flag : Bool) (p : P) :
    (TPairwiseScoreCalcer.construct all features treeConfig subsets flag :
        TPairwiseScoreCalcer P S F R).Solutions.entries = [] ∧
    (TPairwiseScoreCalcer.construct all features treeConfig subsets flag :
        TPairwiseScoreCalcer P S F R).Solutions.has p = false := by
  rw [TPairwiseScoreCalcer.construct_Solutions]
  exact ⟨rfl, rfl⟩

/-- C10: in every calculator state and for every policy `p`, the calculator
after `HasHelperForPolicy(p)`, after `GetHelperForPolicy(p)` and after
`GetResultsForPolicy(p)` is the calculator before the call, so the engine map
and the result store are unchanged whether the call succeeded or failed, and
`HasHelperForPolicy(p)` gives the same answer afterwards. -/
theorem introspection_leaves_state {P S F R : Type} [DecidableEq P]
    (c : TPairwiseScoreCalcer P S F R) (p : P) :
    (c.HasHelperForPolicy p).2 = c ∧
    (c.GetHelperForPolicy p).2 = c ∧
    (c.GetResultsForPolicy p).2 = c ∧
    ((c.GetHelperForPolicy p).2.Helpers = c.Helpers ∧
      (c.GetHelperForPolicy p).2.Solutions = c.Solutions) ∧
    ((c.GetResultsForPolicy p).2.Helpers = c.Helpers ∧
      (c.GetResultsForPolicy p).2.Solutions = c.Solutions) ∧
    ((c.GetHelperForPolicy p).2.HasHelperForPolicy p).1 = (c.HasHelperForPolicy p).1 ∧
    ((c.GetResultsForPolicy p).2.HasHelperForPolicy p).1 = (c.HasHelperForPolicy p).1 := by
  have h1 : (c.GetHelperForPolicy p).2 = c := by
    unfold TPairwiseScoreCalcer.GetHelperForPolicy
    split <;> rfl
  have h2 : (c.GetResultsForPolicy p).2 = c := by
    unfold TPairwiseScoreCalcer.GetResultsForPolicy
    split <;> rfl
  refine ⟨rfl, h1, h2, ?_, ?_, ?_, ?_⟩
  · rw [h1]; exact ⟨rfl, rfl⟩
  · rw [h2]; exact ⟨rfl, rfl⟩
  · rw [h1]
  · rw [h2]

/-! ## Results before `Compute()` -/

/-- C4, as stated, fails: on the freshly constructed sample calculator policy
`0` has an engine and `GetResultsForPolicy(0)` does not return a statistics
object, it fails with the out-of-range exception of `Solutions.at`. -/
theorem GetResultsForPolicy_fresh_fails :
    (sampleCalcer.HasHelperForPolicy 0).1 = true ∧
    (sampleCalcer.GetResultsForPolicy 0).1 = Except.error EException.OutOfRange ∧
    ¬ ∃ r, (sampleCalcer.GetResultsForPolicy 0).1 = Except.ok r := by
  have h : (sampleCalcer.GetResultsForPolicy 0).1 = Except.error EException.OutOfRange := rfl
  refine ⟨by decide, h, ?_⟩
  rintro ⟨r, hr⟩
  rw [h] at hr
  cases hr

/-- C4, amended: for every policy `p` that has an engine,
`GetResultsForPolicy(p)` passes `CB_ENSURE` and its outcome is the outcome of
`Solutions.at(p)`: it fails with the out-of-range exception when the result
store has no entry for `p`, as on every freshly constructed calculator, and it
returns the stored statistics when the store has an entry for `p`. -/
theorem GetResultsForPolicy_of_engine {P S F R : Type} [DecidableEq P]
    (c : TPairwiseScoreCalcer P S F R) (p : P) (hp : (c.HasHelperForPolicy p).1 = true) :
    (c.Solutions.find p = none →
      (c.GetResultsForPolicy p).1 = Except.error EException.OutOfRange) ∧
    (∀ r, c.Solutions.find p = some r → (c.GetResultsForPolicy p).1 = Except.ok r) ∧
    (∀ (all : List P) (features : TCompressedDataSet P)
        (treeConfig : TObliviousTreeLearnerOptions F) (subsets : S) (flag : Bool),
      c = TPairwiseScoreCalcer.construct all features treeConfig subsets flag →
      (c.GetResultsForPolicy p).1 = Except.error EException.OutOfRange) := by
  have hp' : c.Helpers.has p = true := hp
  have hnone : c.Solutions.find p = none →
      (c.GetResultsForPolicy p).1 = Except.error EException.OutOfRange := by
    intro hf
    simp [TPairwiseScoreCalcer.GetResultsForPolicy, hp', TMap.atKey_of_find_none _ _ hf]
  refine ⟨hnone, ?_, ?_⟩
  · intro r hf
    simp [TPairwiseScoreCalcer.GetResultsForPolicy, hp', TMap.atKey_of_find _ _ _ hf]
  · intro all features treeConfig subsets flag hc
    apply hnone
    subst hc
    rw [TPairwiseScoreCalcer.construct_Solutions]
    rfl

theorem GetResultsForPolicy_of_engine_witness :
    ((sampleCalcer.withSolutions sampleSolutions).HasHelperForPolicy 2).1 = true ∧
    ((sampleCalcer.withSolutions sampleSolutions).GetResultsForPolicy 2).1 =
      Except.ok ⟨[⟨7, 10⟩, ⟨4, 11⟩]⟩ :=
  ⟨by decide, (GetResultsForPolicy_of_engine (sampleCalcer.withSolutions sampleSolutions) 2
    (by decide)).2.1 _ rfl⟩

/-! ## The order on results -/

/-- C8: for all results `a` and `b`, `a < b` holds if and only if
`a.BestSplit < b.BestSplit`; the `Solution` fields do not enter the
comparison; when the order on `TBestSplitProperties` is irreflexive, two
results with the same `BestSplit` are incomparable in both directions and the
order on results is irreflexive; when it is transitive, so is the order on
results. -/
theorem TBestSplitResult_less_iff {B F : Type} (propsLess : B → B → Bool) :
    (∀ a b : TBestSplitResult B F,
      a.less propsLess b = true ↔ propsLess a.BestSplit b.BestSplit = true) ∧
    (∀ (x y : B) (s s' t t' : Option (List F)),
      TBestSplitResult.less propsLess ⟨x, s⟩ ⟨y, t⟩ =
        TBestSplitResult.less propsLess ⟨x, s'⟩ ⟨y, t'⟩) ∧
    ((∀ x, propsLess x x = false) →
      ∀ a b : TBestSplitResult B F, a.BestSplit = b.BestSplit →
        a.less propsLess b = false ∧ b.less propsLess a = false) ∧
    ((∀ x, propsLess x x = false) →
      ∀ a : TBestSplitResult B F, a.less propsLess a = false) ∧
    ((∀ x y z, propsLess x y = true → propsLess y z = true → propsLess x z = true) →
      ∀ a b c : TBestSplitResult B F,
        a.less propsLess b = true → b.less propsLess c = true →
          a.less propsLess c = true) := by
  refine ⟨fun a b => Iff.rfl, fun _ _ _ _ _ _ => rfl, ?_, ?_, ?_⟩
  · intro hirr a b hab
    unfold TBestSplitResult.less
    rw [hab]
    exact ⟨hirr _, hirr _⟩
  · intro hirr a
    exact hirr _
  · intro htr a b c hab hbc
    exact htr _ _ _ hab hbc

theorem TBestSplitResult_less_iff_witness :
    (∀ x : Nat, decide (x < x) = false) ∧
    (TBestSplitResult.less (fun x y : Nat => decide (x < y))
        (⟨3, some [1, 2]⟩ : TBestSplitResult Nat Int) ⟨3, none⟩ = false ∧
      TBestSplitResult.less (fun x y : Nat => decide (x < y))
        (⟨3, none⟩ : TBestSplitResult Nat Int) ⟨3, some [1, 2]⟩ = false) :=
  ⟨fun x => by simp,
    (TBestSplitResult_less_iff (fun x y : Nat => decide (x < y))).2.2.1 (fun x => by simp)
      ⟨3, some [1, 2]⟩ ⟨3, none⟩ rfl⟩

/-! ## Best-split selection -/

theorem TBestSplitProperties.less_iff_rank {Sc Key : Type} [LinearOrder Sc] [LinearOrder Key]
    (a b : TBestSplitProperties Sc Key) : a.less b = true ↔ a.rank < b.rank := by
  simp [TBestSplitProperties.less, TBestSplitProperties.rank, Prod.Lex.lt_iff]

theorem TBestSplitProperties.rank_le_iff {Sc Key : Type} [LinearOrder Sc] [LinearOrder Key]
    (a b : TBestSplitProperties Sc Key) :
    a.rank ≤ b.rank ↔ a.Score < b.Score ∨ (a.Score = b.Score ∧ b.Identity ≤ a.Identity) := by
  simp [TBestSplitProperties.rank, Prod.Lex.le_iff]

theorem TBestSplitProperties.rank_injective {Sc Key : Type}
    (a b : TBestSplitProperties Sc Key) (h : a.rank = b.rank) : a = b := by
  cases a
  cases b
  simp only [TBestSplitProperties.rank, EmbeddingLike.apply_eq_iff_eq, Prod.mk.injEq] at h
  simp [h.1, h.2]

theorem TPairwiseScoreCalcer.scanBest_some {Sc Key : Type} [LinearOrder Sc] [LinearOrder Key]
    (l : List (TBestSplitProperties Sc Key)) (b : TBestSplitProperties Sc Key) :
    ∃ w, TPairwiseScoreCalcer.scanBest (some b) l = some w ∧ w ∈ b :: l ∧
      ∀ x ∈ b :: l, x.rank ≤ w.rank := by
  induction l generalizing b with
  | nil =>
    exact ⟨b, rfl, List.mem_cons_self _ _, fun x hx => by
      simp only [List.mem_singleton] at hx
      rw [hx]⟩
  | cons c rest ih =>
    obtain ⟨w, hw, hmem, hmax⟩ := ih (if b.less c then c else b)
    refine ⟨w, ?_, ?_, ?_⟩
    · simpa [TPairwiseScoreCalcer.scanBest] using hw
    · rcases List.mem_cons.1 hmem with h | h
      · by_cases hbc : b.less c = true
        · rw [if_pos hbc] at h
          rw [h]
          simp
        · rw [if_neg hbc] at h
          rw [h]
          simp
      · exact List.mem_cons_of_mem _ (List.mem_cons_of_mem _ h)
    · intro x hx
      have hb' := hmax _ (List.mem_cons_self _ _)
      by_cases hbc : b.less c = true
      · rw [if_pos hbc] at hb'
        have hlt := (TBestSplitProperties.less_iff_rank b c).1 hbc
        rcases List.mem_cons.1 hx with h | h
        · rw [h]
          exact le_trans (le_of_lt hlt) hb'
        · rcases List.mem_cons.1 h with h | h
          · rw [h]
            exact hb'
          · exact hmax x (List.mem_cons_of_mem _ h)
      · rw [if_neg hbc] at hb'
        have hnlt : ¬ b.rank < c.rank := fun h =>
          hbc ((TBestSplitProperties.less_iff_rank b c).2 h)
        rcases List.mem_cons.1 hx with h | h
        · rw [h]
          exact hb'
        · rcases List.mem_cons.1 h with h | h
          · rw [h]
            exact le_trans (not_lt.1 hnlt) hb'
          · exact hmax x (List.mem_cons_of_mem _ h)

theorem TPairwiseScoreCalcer.scanBest_none {Sc Key : Type} [LinearOrder Sc] [LinearOrder Key]
    (l : List (TBestSplitProperties Sc Key)) (hne : l ≠ []) :
    ∃ w, TPairwiseScoreCalcer.scanBest none l = some w ∧ w ∈ l ∧
      ∀ x ∈ l, x.rank ≤ w.rank := by
  cases l with
  | nil => exact absurd rfl hne
  | cons c rest =>
    obtain ⟨w, hw, hmem, hmax⟩ := TPairwiseScoreCalcer.scanBest_some rest c
    exact ⟨w, by simpa [TPairwiseScoreCalcer.scanBest] using hw, hmem, hmax⟩

theorem TMap.mem_of_findIn {K V : Type} [DecidableEq K] (l : List (K × V)) (k : K) (v : V)
    (h : TMap.findIn l k = some v) : (k, v) ∈ l := by
  induction l with
  | nil => simp [TMap.findIn] at h
  | cons e rest ih =>
    obtain ⟨a, b⟩ := e
    by_cases hak : a = k
    · simp only [TMap.findIn, hak, if_true, Option.some.injEq] at h
      rw [hak, h]
      exact List.mem_cons_self _ _
    · simp only [TMap.findIn, hak, if_false] at h
      exact List.mem_cons_of_mem _ (ih h)

theorem TPairwiseScoreCalcer.candidatesOf_empty {P H Sc Key : Type} [DecidableEq P]
    (l : List (P × H)) :
    TPairwiseScoreCalcer.candidatesOf (TMap.empty : TMap P (TBinaryFeatureSplitResults Sc Key))
      l = [] := by
  induction l with
  | nil => rfl
  | cons e rest ih =>
    have hfind : (TMap.empty : TMap P (TBinaryFeatureSplitResults Sc Key)).find e.1 = none :=
      rfl
    simp [TPairwiseScoreCalcer.candidatesOf, ih, hfind]

/-- C6: on every calculator whose result store is populated (every active
policy has results and there is a candidate), `FindOptimalSplit` returns a
candidate of the store with the largest score; among the candidates with that
score it is the first one in the secondary-key order; every other candidate is
below it in the order on split candidates; and every populated calculator with
the same candidates in another order returns the same result. -/
theorem FindOptimalSplit_selects_best {P S F Sc Key : Type} [DecidableEq P]
    [LinearOrder Sc] [LinearOrder Key]
    (LeafSolver : TBestSplitProperties Sc Key → List F)
    (c : TPairwiseScoreCalcer P S F (TBinaryFeatureSplitResults Sc Key))
    (needBestSolution : Bool)
    (hready : c.IsReady = true) (hne : c.Candidates ≠ []) :
    ∃ r, TPairwiseScoreCalcer.FindOptimalSplit LeafSolver c needBestSolution = Except.ok r ∧
      r.BestSplit ∈ c.Candidates ∧
      (∀ x ∈ c.Candidates, x.Score ≤ r.BestSplit.Score) ∧
      (∀ x ∈ c.Candidates, x.Score = r.BestSplit.Score →
        r.BestSplit.Identity ≤ x.Identity) ∧
      (∀ x ∈ c.Candidates, x ≠ r.BestSplit → x.less r.BestSplit = true) ∧
      (∀ c' : TPairwiseScoreCalcer P S F (TBinaryFeatureSplitResults Sc Key),
        c'.IsReady = true → c'.Candidates.Perm c.Candidates →
        TPairwiseScoreCalcer.FindOptimalSplit LeafSolver c' needBestSolution = Except.ok r) := by
  obtain ⟨w, hw, hmem, hmax⟩ := TPairwiseScoreCalcer.scanBest_none c.Candidates hne
  refine ⟨⟨w, if needBestSolution then some (LeafSolver w) else none⟩, ?_, hmem, ?_, ?_, ?_, ?_⟩
  · simp [TPairwiseScoreCalcer.FindOptimalSplit, hready, hw]
  · intro x hx
    rcases (TBestSplitProperties.rank_le_iff x w).1 (hmax x hx) with h | h
    · exact le_of_lt h
    · exact le_of_eq h.1
  · intro x hx heq
    rcases (TBestSplitProperties.rank_le_iff x w).1 (hmax x hx) with h | h
    · exact absurd heq (ne_of_lt h)
    · exact h.2
  · intro x hx hxw
    apply (TBestSplitProperties.less_iff_rank x w).2
    exact lt_of_le_of_ne (hmax x hx)
      (fun h => hxw (TBestSplitProperties.rank_injective x w h))
  · intro c' hready' hperm
    have hne' : c'.Candidates ≠ [] := by
      intro h
      rw [h] at hperm
      exact hne (List.Perm.eq_nil (List.Perm.symm hperm))
    obtain ⟨w', hw', hmem', hmax'⟩ := TPairwiseScoreCalcer.scanBest_none c'.Candidates hne'
    have h1 : w'.rank ≤ w.rank := hmax w' ((List.Perm.mem_iff hperm).1 hmem')
    have h2 : w.rank ≤ w'.rank := hmax' w ((List.Perm.mem_iff hperm).2 hmem)
    have hww : w' = w := TBestSplitProperties.rank_injective w' w (le_antisymm h1 h2)
    simp [TPairwiseScoreCalcer.FindOptimalSplit, hready', hw', hww]

theorem FindOptimalSplit_selects_best_witness :
    (sampleCalcer.withSolutions sampleSolutions).IsReady = true ∧
    (sampleCalcer.withSolutions sampleSolutions).Candidates ≠ [] ∧
    ∃ r, TPairwiseScoreCalcer.FindOptimalSplit sampleSolver
        (sampleCalcer.withSolutions sampleSolutions) true = Except.ok r ∧
      r.BestSplit ∈ (sampleCalcer.withSolutions sampleSolutions).Candidates ∧
      (∀ x ∈ (sampleCalcer.withSolutions sampleSolutions).Candidates,
        x.Score ≤ r.BestSplit.Score) ∧
      TPairwiseScoreCalcer.FindOptimalSplit sampleSolver
        (sampleCalcer.withSolutions sampleSolutionsSwapped) true = Except.ok r :=
  ⟨by decide, by decide,
    (FindOptimalSplit_selects_best sampleSolver (sampleCalcer.withSolutions sampleSolutions)
      true (by decide) (by decide)).imp
      (fun _ h => ⟨h.1, h.2.1, h.2.2.1,
        h.2.2.2.2.2 (sampleCalcer.withSolutions sampleSolutionsSwapped) (by decide)
          (by decide)⟩)⟩

/-- C7: on every calculator on which some active policy has no entry in the
result store, and on every freshly constructed calculator, `FindOptimalSplit`
fails with `NotReadyError`, for both values of `needBestSolution`. -/
theorem FindOptimalSplit_not_ready {P S F Sc Key : Type} [DecidableEq P]
    [LinearOrder Sc] [LinearOrder Key]
    (LeafSolver : TBestSplitProperties Sc Key → List F)
    (c : TPairwiseScoreCalcer P S F (TBinaryFeatureSplitResults Sc Key))
    (needBestSolution : Bool) :
    ((∃ p, (c.HasHelperForPolicy p).1 = true ∧ c.Solutions.has p = false) →
      TPairwiseScoreCalcer.FindOptimalSplit LeafSolver c needBestSolution =
        Except.error EException.NotReadyError) ∧
    (∀ (all : List P) (features : TCompressedDataSet P)
        (treeConfig : TObliviousTreeLearnerOptions F) (subsets : S) (flag : Bool),
      c = TPairwiseScoreCalcer.construct all features treeConfig subsets flag →
      TPairwiseScoreCalcer.FindOptimalSplit LeafSolver c needBestSolution =
        Except.error EException.NotReadyError) := by
  constructor
  · rintro ⟨p, hhas, hsol⟩
    have hhas' : c.Helpers.has p = true := hhas
    obtain ⟨h, hf⟩ := (TMap.has_eq_true_iff _ _).1 hhas'
    have hmem : (p, h) ∈ c.Helpers.entries := TMap.mem_of_findIn _ _ _ hf
    have hnr : c.IsReady = false := by
      unfold TPairwiseScoreCalcer.IsReady
      rw [List.all_eq_false]
      exact ⟨(p, h), hmem, by simp [hsol]⟩
    simp [TPairwiseScoreCalcer.FindOptimalSplit, hnr]
  · intro all features treeConfig subsets flag hc
    have hcand : c.Candidates = [] := by
      unfold TPairwiseScoreCalcer.Candidates
      rw [hc, TPairwiseScoreCalcer.construct_Solutions]
      exact TPairwiseScoreCalcer.candidatesOf_empty _
    unfold TPairwiseScoreCalcer.FindOptimalSplit
    rw [hcand]
    simp [TPairwiseScoreCalcer.scanBest]

theorem FindOptimalSplit_not_ready_witness :
    (∃ p, (sampleCalcer.HasHelperForPolicy p).1 = true ∧
      sampleCalcer.Solutions.has p = false) ∧
    TPairwiseScoreCalcer.FindOptimalSplit sampleSolver sampleCalcer false =
      Except.error EException.NotReadyError :=
  ⟨⟨0, by decide, by decide⟩,
    (FindOptimalSplit_not_ready sampleSolver sampleCalcer false).1
      ⟨0, by decide, by decide⟩⟩

end NCatboostCuda
